import Mathlib

/-!
Verification of the zappix-demo2 repository: a shallow embedding of the
frontend code (Next.js pages, API client, utilities, components) and, where
backend behaviour is needed but the backend source is absent, models taken
from the specification. Definitions are translated from the source files;
theorems settle the frozen claims about the program.
-/

set_option maxRecDepth 4096

namespace ZappixDemo

/-! ## Utilities (frontend/src/lib/utils.ts)

`formatPhoneNumber` strips non-digits, then matches the regex
`^(\d\x7b1\x7d)?(\d\x7b3\x7d)(\d\x7b3\x7d)(\d\x7b4\x7d)$` against the cleaned
string; on a match it rebuilds the number as `+<g1> (<g2>) <g3>-<g4>` (the
international code only when group 1 matched), otherwise it returns the
input unchanged. Since the cleaned string is all digits, the regex matches
exactly when it has 10 digits (group 1 empty after backtracking) or 11
digits (group 1 captures the first digit); we embed the match attempt with
the same greedy-then-backtrack order. -/

/-- One attempt of the anchored phone regex on an all-digit list: with
`g1 := true` the optional leading group captures one digit, with
`g1 := false` it captures nothing; the remaining groups need 3+3+4 digits
and the match is anchored at both ends. -/
def tryPhoneMatch (ds : List Char) (g1 : Bool) :
    Option (List Char × List Char × List Char × List Char) :=
  let k := if g1 then 1 else 0
  if ds.length = k + 10 then
    some (ds.take k, (ds.drop k).take 3, ((ds.drop k).drop 3).take 3,
      (ds.drop k).drop 6)
  else none

/-- The regex match of `formatPhoneNumber`: the greedy optional group is
tried first, then the engine backtracks to an empty group 1. -/
def phoneMatch (ds : List Char) :
    Option (List Char × List Char × List Char × List Char) :=
  match tryPhoneMatch ds true with
  | some r => some r
  | none => tryPhoneMatch ds false

/-- `formatPhoneNumber` from frontend/src/lib/utils.ts. -/
def formatPhoneNumber (phone : String) : String :=
  let cleaned := phone.data.filter Char.isDigit
  match phoneMatch cleaned with
  | some (g1, g2, g3, g4) =>
      let intlCode := if g1.isEmpty then "" else "+" ++ String.mk g1 ++ " "
      intlCode ++ "(" ++ String.mk g2 ++ ") " ++ String.mk g3 ++ "-" ++ String.mk g4
  | none => phone

/-- The supported locales: the union type `'en' | 'es'` (Home page state)
and `keyof typeof translations` in frontend/src/lib/utils.ts. -/
inductive Language
  | en
  | es
deriving DecidableEq

/-- The wire value of a locale. -/
def Language.code : Language → String
  | .en => "en"
  | .es => "es"

/-- The `translations.en` object of frontend/src/lib/utils.ts, as the list
of key/value pairs in source order. -/
def enTable : List (String × String) :=
  [ ("title", "Health Assessment Form"),
    ("subtitle", "Review and Sign"),
    ("description", "Please review your responses below and sign to complete your annual health assessment."),
    ("personalInfo", "Personal Information"),
    ("healthResponses", "Health Assessment Responses"),
    ("name", "Name"),
    ("dateOfBirth", "Date of Birth"),
    ("zipCode", "Zip Code"),
    ("generalHealth", "General Health Status"),
    ("moderateActivities", "Moderate Activities Limitation"),
    ("climbingStairs", "Climbing Stairs Limitation"),
    ("signature", "Signature"),
    ("signatureInstructions", "Please sign in the box below to confirm your responses"),
    ("clear", "Clear"),
    ("submit", "Submit Form"),
    ("submitting", "Submitting..."),
    ("success", "Form Submitted Successfully!"),
    ("successMessage", "Thank you for completing your health assessment. A confirmation email has been sent."),
    ("error", "Error"),
    ("notProvided", "Not provided"),
    ("poweredBy", "Powered by") ]

/-- The `translations.es` object of frontend/src/lib/utils.ts, as the list
of key/value pairs in source order. -/
def esTable : List (String × String) :=
  [ ("title", "Formulario de Evaluación de Salud"),
    ("subtitle", "Revisar y Firmar"),
    ("description", "Por favor revise sus respuestas a continuación y firme para completar su evaluación de salud anual."),
    ("personalInfo", "Información Personal"),
    ("healthResponses", "Respuestas de Evaluación de Salud"),
    ("name", "Nombre"),
    ("dateOfBirth", "Fecha de Nacimiento"),
    ("zipCode", "Código Postal"),
    ("generalHealth", "Estado de Salud General"),
    ("moderateActivities", "Limitación en Actividades Moderadas"),
    ("climbingStairs", "Limitación al Subir Escaleras"),
    ("signature", "Firma"),
    ("signatureInstructions", "Por favor firme en el cuadro de abajo para confirmar sus respuestas"),
    ("clear", "Borrar"),
    ("submit", "Enviar Formulario"),
    ("submitting", "Enviando..."),
    ("success", "¡Formulario Enviado Exitosamente!"),
    ("successMessage", "Gracias por completar su evaluación de salud. Se ha enviado un correo de confirmación."),
    ("error", "Error"),
    ("notProvided", "No proporcionado"),
    ("poweredBy", "Desarrollado por") ]

/-- The `translations` record of frontend/src/lib/utils.ts: one table per
supported locale. -/
def translations : Language → List (String × String)
  | .en => enTable
  | .es => esTable

/-- The two language option buttons of the Home page
(`[\x7b value: 'en', ... \x7d, \x7b value: 'es', ... \x7d]`). -/
def homeLanguageOptions : List Language := [.en, .es]

/-! ## FormField (frontend/src/components/FormField.tsx)

The component renders `value || <span ...>\x7bfallback\x7d</span>`: the value
text when `value` is truthy, the italic fallback span when `value` is null
or the empty string. The default of the `fallback` prop is "Not provided". -/

/-- What the value area of a `FormField` shows: the raw value text, or the
styled fallback span. -/
inductive FieldRendering
  | valueText (s : String)
  | fallbackText (s : String)
deriving DecidableEq

/-- `FormField`'s value area, from FormField.tsx: JavaScript `||` takes the
fallback branch exactly on falsy values, i.e. `null` and `""` here. -/
def renderFormField (value : Option String) (fallback : String) : FieldRendering :=
  match value with
  | none => .fallbackText fallback
  | some v => if v = "" then .fallbackText fallback else .valueText v

/-- The default of the `fallback` prop of `FormField`. -/
def formFieldDefaultFallback : String := "Not provided"

/-- `FormField` with the `fallback` prop omitted. -/
def renderFormFieldDefault (value : Option String) : FieldRendering :=
  renderFormField value formFieldDefaultFallback

/-! ## API client (frontend/src/lib/api.ts)

Each client function wraps `fetch`: on a non-ok response it throws a fixed
generic `Error`, on an ok response it returns the parsed JSON body. We model
an HTTP exchange as a response record carrying the `ok` flag, the status
code, and the already-parsed body, and each wrapper as a function from the
response to `Except String body` whose error carries the thrown message. -/

/-- An HTTP response as the client sees it: the `ok` flag and status of the
`fetch` `Response`, and the JSON body parsed to `α`. -/
structure HttpResponse (α : Type) where
  ok : Bool
  status : Nat
  body : α

/-- The `FormData` interface of frontend/src/lib/api.ts. -/
structure FormData where
  session_id : String
  first_name : String
  language : String
  date_of_birth : Option String
  zip_code : Option String
  general_health : Option String
  general_health_display : Option String
  moderate_activities_limitation : Option String
  moderate_activities_display : Option String
  climbing_stairs_limitation : Option String
  climbing_stairs_display : Option String
  call_completed : Bool
deriving DecidableEq

/-- The `OutboundCallRequest` interface of frontend/src/lib/api.ts
(`language` is an optional property). -/
structure OutboundCallRequest where
  first_name : String
  phone_number : String
  language : Option Language
deriving DecidableEq

/-- The `OutboundCallResponse` interface of frontend/src/lib/api.ts. -/
structure OutboundCallResponse where
  success : Bool
  session_id : String
  message : String
deriving DecidableEq

/-- The return shape of `getSessionStatus` in frontend/src/lib/api.ts. -/
structure SessionStatus where
  session_id : String
  call_completed : Bool
  form_submitted : Bool
  opted_in_for_sms : Bool
deriving DecidableEq

/-- A JSON value as far as these payloads need: strings, null, booleans. -/
inductive JsonVal
  | jstr (s : String)
  | jnull
  | jbool (b : Bool)
deriving DecidableEq

/-- A nullable string field serialised to JSON. -/
def optStr : Option String → JsonVal
  | none => JsonVal.jnull
  | some s => JsonVal.jstr s

/-- The JSON object of a `FormData` value, keys in interface order. -/
def FormData.toPairs (fd : FormData) : List (String × JsonVal) :=
  [ ("session_id", .jstr fd.session_id),
    ("first_name", .jstr fd.first_name),
    ("language", .jstr fd.language),
    ("date_of_birth", optStr fd.date_of_birth),
    ("zip_code", optStr fd.zip_code),
    ("general_health", optStr fd.general_health),
    ("general_health_display", optStr fd.general_health_display),
    ("moderate_activities_limitation", optStr fd.moderate_activities_limitation),
    ("moderate_activities_display", optStr fd.moderate_activities_display),
    ("climbing_stairs_limitation", optStr fd.climbing_stairs_limitation),
    ("climbing_stairs_display", optStr fd.climbing_stairs_display),
    ("call_completed", .jbool fd.call_completed) ]

/-- The JSON object of an `OutboundCallRequest`, keys in interface order. -/
def OutboundCallRequest.toPairs (r : OutboundCallRequest) : List (String × JsonVal) :=
  [ ("first_name", .jstr r.first_name),
    ("phone_number", .jstr r.phone_number),
    ("language", optStr (r.language.map Language.code)) ]

/-- The JSON object of an `OutboundCallResponse`, keys in interface order. -/
def OutboundCallResponse.toPairs (r : OutboundCallResponse) : List (String × JsonVal) :=
  [ ("success", .jbool r.success),
    ("session_id", .jstr r.session_id),
    ("message", .jstr r.message) ]

/-- The JSON object of a `SessionStatus`, keys in source order. -/
def SessionStatus.toPairs (s : SessionStatus) : List (String × JsonVal) :=
  [ ("session_id", .jstr s.session_id),
    ("call_completed", .jbool s.call_completed),
    ("form_submitted", .jbool s.form_submitted),
    ("opted_in_for_sms", .jbool s.opted_in_for_sms) ]

/-- `getFormData` of frontend/src/lib/api.ts: throws the one generic message
on any non-ok response, returns the parsed body otherwise. -/
def getFormData (resp : HttpResponse FormData) : Except String FormData :=
  if resp.ok then .ok resp.body else .error "Failed to fetch form data"

/-- The body shape of the submit endpoint's response. -/
structure SubmitResponse where
  success : Bool
  message : String
deriving DecidableEq

/-- `submitForm` of frontend/src/lib/api.ts: throws the one generic message
on any non-ok response, returns the parsed body otherwise. -/
def submitForm (resp : HttpResponse SubmitResponse) : Except String SubmitResponse :=
  if resp.ok then .ok resp.body else .error "Failed to submit form"

/-- `initiateOutboundCall` of frontend/src/lib/api.ts: throws the one
generic message on any non-ok response, returns the parsed body otherwise. -/
def initiateOutboundCall (resp : HttpResponse OutboundCallResponse) :
    Except String OutboundCallResponse :=
  if resp.ok then .ok resp.body else .error "Failed to initiate call"

/-- `getSessionStatus` of frontend/src/lib/api.ts. -/
def getSessionStatus (resp : HttpResponse SessionStatus) : Except String SessionStatus :=
  if resp.ok then .ok resp.body else .error "Failed to fetch session status"

/-- The path `getSessionStatus` fetches (relative to `API_URL`). -/
def getSessionStatusPath (sessionId : String) : String :=
  "/api/forms/" ++ sessionId ++ "/status"

/-- The session-details endpoint the README's API table documents:
`GET /api/calls/session/\x7bsession_id\x7d`. -/
def readmeSessionStatusPath (sessionId : String) : String :=
  "/api/calls/session/" ++ sessionId

/-! ## SignaturePad (frontend/src/components/SignaturePad.tsx) -/

/-- The signature canvas as `handleEnd`/`handleClear` observe it. -/
structure SigCanvas where
  isEmpty : Bool
  dataUrl : String

/-- `SignaturePad.handleEnd`: delivers the canvas data URL via `onSignature`
only when the canvas is non-empty; on an empty canvas nothing is delivered
(modelled as `none`). -/
def signaturePadHandleEnd (c : SigCanvas) : Option String :=
  if c.isEmpty then none else some c.dataUrl

/-- `SignaturePad.handleClear`: clears the canvas and delivers `null`. -/
def signaturePadHandleClear : Option String := none

/-! ## FormPage (frontend/src/pages — the form review page) -/

/-- The React state of `FormPage`. -/
structure FormPageState where
  formData : Option FormData
  isLoading : Bool
  error : Option String
  signature : Option String
  isSubmitting : Bool
  isSubmitted : Bool
deriving DecidableEq

/-- Which top-level view `FormPage` returns. -/
inductive FormView
  | loadingView
  | errorView
  | submittedView
  | formView
deriving DecidableEq

/-- The render function of `FormPage`, following the early-return order of
the component: loading spinner, then the error card when `error` is set or
`formData` is missing, then the success view when `isSubmitted`, else the
form. -/
def renderFormPage (s : FormPageState) : FormView :=
  if s.isLoading then .loadingView
  else if s.error.isSome || s.formData.isNone then .errorView
  else if s.isSubmitted then .submittedView
  else .formView

/-- `FormPage.fetchData`: on success stores the form data, on any thrown
error sets the one generic message; either way loading ends. Returns the
resulting `(error, formData)` state components. -/
def fetchDataResult (resp : HttpResponse FormData) : Option String × Option FormData :=
  match getFormData resp with
  | .ok d => (none, some d)
  | .error _ => (some "Unable to load form data. Please try again later.", none)

/-- Whether `FormPage.handleSubmit` reaches the `submitForm` call: it
returns early when `signature` is falsy or the router's `sessionId` is not
a (non-empty) string. -/
def handleSubmitInvokes (signature : Option String) (sessionId : Option String) : Bool :=
  match signature, sessionId with
  | some sig, some sid => !(sig = "") && !(sid = "")
  | _, _ => false

/-- The state update of `FormPage.handleSubmit` once `submitForm` settles:
on success set `isSubmitted`; on rejection set the generic error message;
in both cases clear `isSubmitting`. -/
def handleSubmitResult (s : FormPageState) (result : Except String SubmitResponse) :
    FormPageState :=
  match result with
  | .ok _ => { s with isSubmitted := true, isSubmitting := false }
  | .error _ =>
      { s with error := some "Failed to submit form. Please try again.",
               isSubmitting := false }

/-- The `disabled` expression of the FormPage submit button:
`!signature || isSubmitting` (JavaScript falsiness: null or empty string). -/
def submitButtonDisabled (signature : Option String) (isSubmitting : Bool) : Bool :=
  (match signature with | none => true | some s => s = "") || isSubmitting

/-! ## Home page (frontend/src/pages — the call-initiation page) -/

/-- The `disabled` expression of the Home page submit button:
`isLoading || !firstName || !phoneNumber`. -/
def homeSubmitDisabled (isLoading : Bool) (firstName phoneNumber : String) : Bool :=
  isLoading || firstName = "" || phoneNumber = ""

/-- The request the Home page's `handleSubmit` passes to
`initiateOutboundCall`: the current `firstName`, `phoneNumber` and
`language` state. -/
def homeCallRequest (firstName phoneNumber : String) (language : Language) :
    OutboundCallRequest :=
  { first_name := firstName, phone_number := phoneNumber, language := some language }

/-! ## Backend models

The backend application (FastAPI session state machine, authentication
matcher, form endpoints) is not among the provided source files — only its
README, callers and interfaces are — so the parts a claim needs are
modelled from the specification, as marked on each definition. -/

/-- The lifecycle phases of §4.5 of the specification. -/
inductive Phase
  | INITIATED
  | RINGING
  | AUTHENTICATING
  | ASSESSMENT
  | OPT_IN
  | OPT_IN_COMPLETE
  | FORM_REVIEW
  | SIGNED
  | SUBMITTED
  | FAILED_AUTH
  | ABANDONED
  | CALL_ERROR
  | EXPIRED
deriving DecidableEq

/-- The match status of one identity fact: matched, unmatched, or not yet
collected. -/
inductive FactStatus
  | notCollected
  | matched
  | unmatched
deriving DecidableEq

/-- The three identity-fact slots: date of birth, zip code, and the last
identifier digits (SSN per the README). -/
inductive FactSlot
  | dob
  | zipCode
  | ssn
deriving DecidableEq

/-- The authentication-relevant part of a session: the three fact slots, the
cumulative failed-attempt counter, and the authenticated flag. -/
structure AuthState where
  dob : FactStatus
  zipCode : FactStatus
  ssn : FactStatus
  attempts : Nat
  authenticated : Bool
deriving DecidableEq

/-- How many of the three identity facts are marked matched. -/
def matchedCount (s : AuthState) : Nat :=
  (if s.dob = .matched then 1 else 0) +
  (if s.zipCode = .matched then 1 else 0) +
  (if s.ssn = .matched then 1 else 0)

/-- Overwrite the status of one fact slot. -/
def setSlot (s : AuthState) (slot : FactSlot) (st : FactStatus) : AuthState :=
  match slot with
  | .dob => { s with dob := st }
  | .zipCode => { s with zipCode := st }
  | .ssn => { s with ssn := st }

/-- Modelled from the spec: the Authentication Matcher (§4.2; the backend
source is absent from the provided files). One fact submission marks the
spoken slot matched or unmatched (a normalization failure counts as a
non-match), counts a failure toward lockout, and recomputes `authenticated`
under the 2-of-3 rule. -/
def applyFact (s : AuthState) (slot : FactSlot) (isMatch : Bool) : AuthState :=
  let s1 := setSlot s slot (if isMatch then .matched else .unmatched)
  let s2 := { s1 with attempts := if isMatch then s1.attempts else s1.attempts + 1 }
  { s2 with authenticated := decide (2 ≤ matchedCount s2) }

/-- A fresh session's authentication state: nothing collected, no attempts,
not authenticated. -/
def initialAuthState : AuthState :=
  { dob := .notCollected, zipCode := .notCollected, ssn := .notCollected,
    attempts := 0, authenticated := false }

/-- The authentication states any sequence of matcher operations can
produce from a fresh session. -/
inductive AuthReachable : AuthState → Prop
  | init : AuthReachable initialAuthState
  | step (s : AuthState) (slot : FactSlot) (isMatch : Bool) :
      AuthReachable s → AuthReachable (applyFact s slot isMatch)

/-- The submit-relevant part of a backend session record. -/
structure Session where
  phase : Phase
  signatureRef : Option String
  submitted : Bool
deriving DecidableEq

/-- Why the submit endpoint rejects a submission. -/
inductive SubmitError
  | invalidSignature
  | wrongPhase
deriving DecidableEq

/-- Modelled from the spec: the backend submit-form endpoint (§6; the
backend source is absent from the provided files). "transitions
FORM_REVIEW → SUBMITTED; fails if no valid signature or if phase is not
FORM_REVIEW"; a valid signature is a present, non-empty artifact. -/
def submitFormEndpoint (sess : Session) (signature : Option String) :
    Except SubmitError Session :=
  match signature with
  | none => .error .invalidSignature
  | some sig =>
      if sig = "" then .error .invalidSignature
      else if sess.phase = Phase.FORM_REVIEW then
        .ok { sess with phase := Phase.SUBMITTED, signatureRef := some sig,
                        submitted := true }
      else .error .wrongPhase

/-! ## Helper lemmas -/

/-- Appending strings appends their character lists. -/
theorem string_data_append (a b : String) : (a ++ b).data = a.data ++ b.data := by
  cases a
  cases b
  rfl

/-- The length of an appended string is the sum of the lengths. -/
theorem string_length_append (a b : String) : (a ++ b).length = a.length + b.length := by
  show (a ++ b).data.length = a.data.length + b.data.length
  rw [string_data_append]
  exact List.length_append _ _

/-- Unfolding equation of `formatPhoneNumber`. -/
theorem formatPhoneNumber_eq (phone : String) :
    formatPhoneNumber phone =
      match phoneMatch (phone.data.filter Char.isDigit) with
      | some (g1, g2, g3, g4) =>
          (if g1.isEmpty then "" else "+" ++ String.mk g1 ++ " ") ++
            "(" ++ String.mk g2 ++ ") " ++ String.mk g3 ++ "-" ++ String.mk g4
      | none => phone := rfl

/-! ## Claims -/

/-- C1: For every session, the authenticated flag is true only if at least
two of the three identity facts (date of birth, zip code, partial
identifier) are marked matched; no sequence of matcher operations starting
from a fresh session can produce a state with `authenticated = true` and
fewer than two matched facts. -/
theorem authenticated_implies_two_of_three (s : AuthState)
    (h : AuthReachable s) (ha : s.authenticated = true) : 2 ≤ matchedCount s := by
  induction h with
  | init => simp [initialAuthState] at ha
  | step s slot isMatch _ _ =>
      have h2 : (applyFact s slot isMatch).authenticated
          = decide (2 ≤ matchedCount (applyFact s slot isMatch)) := by
        cases slot <;> cases isMatch <;> rfl
      rw [h2] at ha
      exact of_decide_eq_true ha

/-- Witness for C1: supplying two matching facts yields a reachable state
with `authenticated = true`, and the theorem gives two matched facts. -/
theorem authenticated_implies_two_of_three_witness :
    2 ≤ matchedCount (applyFact (applyFact initialAuthState .dob true) .zipCode true) :=
  authenticated_implies_two_of_three _
    (AuthReachable.step _ _ _ (AuthReachable.step _ _ _ AuthReachable.init)) rfl

/-- C2: The submit-form operation fails whenever no valid signature is
supplied or the session phase is not FORM_REVIEW (and succeeds only with a
non-empty signature in FORM_REVIEW); on the client, `handleSubmit` reaches
`submitForm` only with a non-null signature, the submit button is disabled
while the signature is null, and `SignaturePad.handleEnd` delivers a
signature only when the canvas is non-empty. -/
theorem submit_form_guard :
    (∀ (sess : Session) (signature : Option String),
        signature = none ∨ signature = some "" ∨ sess.phase ≠ Phase.FORM_REVIEW →
        ∃ e, submitFormEndpoint sess signature = .error e) ∧
    (∀ (sess res : Session) (signature : Option String),
        submitFormEndpoint sess signature = .ok res →
        sess.phase = Phase.FORM_REVIEW ∧ ∃ sig, signature = some sig ∧ sig ≠ "") ∧
    (∀ (sig sid : Option String), handleSubmitInvokes sig sid = true → sig ≠ none) ∧
    (∀ (isSub : Bool), submitButtonDisabled none isSub = true) ∧
    (∀ (c : SigCanvas) (s : String), signaturePadHandleEnd c = some s →
        c.isEmpty = false) := by
  refine ⟨?_, ?_, ?_, ?_, ?_⟩
  · rintro sess signature (rfl | rfl | hp)
    · exact ⟨.invalidSignature, rfl⟩
    · exact ⟨.invalidSignature, rfl⟩
    · match signature with
      | none => exact ⟨.invalidSignature, rfl⟩
      | some sig =>
          by_cases hs : sig = ""
          · exact ⟨.invalidSignature, by simp [submitFormEndpoint, hs]⟩
          · exact ⟨.wrongPhase, by simp [submitFormEndpoint, hs, hp]⟩
  · intro sess res signature h
    match signature with
    | none => simp [submitFormEndpoint] at h
    | some sig =>
        by_cases hs : sig = ""
        · simp [submitFormEndpoint, hs] at h
        · by_cases hp : sess.phase = Phase.FORM_REVIEW
          · exact ⟨hp, sig, rfl, hs⟩
          · simp [submitFormEndpoint, hs, hp] at h
  · intro sig sid h
    match sig, sid with
    | some s, some t => simp
    | none, _ => simp [handleSubmitInvokes] at h
    | some s, none => simp [handleSubmitInvokes] at h
  · intro isSub
    simp [submitButtonDisabled]
  · intro c s h
    by_cases he : c.isEmpty
    · simp [signaturePadHandleEnd, he] at h
    · simpa using he

/-- Witness for C2: the endpoint rejects a submit outside FORM_REVIEW,
accepts one inside it with a non-empty signature, the handler hypotheses
are dischargeable, and a drawn canvas yields a signature. -/
theorem submit_form_guard_witness :
    (∃ e, submitFormEndpoint ⟨Phase.ASSESSMENT, none, false⟩ (some "sig-data")
        = Except.error e) ∧
    ((⟨Phase.FORM_REVIEW, none, false⟩ : Session).phase = Phase.FORM_REVIEW ∧
      ∃ sig, (some "sig-data" : Option String) = some sig ∧ sig ≠ "") ∧
    (some "sig-data" : Option String) ≠ none ∧
    submitButtonDisabled none false = true ∧
    (SigCanvas.mk false "sig-data").isEmpty = false :=
  ⟨submit_form_guard.1 ⟨Phase.ASSESSMENT, none, false⟩ (some "sig-data")
      (Or.inr (Or.inr (by decide))),
   submit_form_guard.2.1 ⟨Phase.FORM_REVIEW, none, false⟩
      ⟨Phase.SUBMITTED, some "sig-data", true⟩ (some "sig-data") rfl,
   submit_form_guard.2.2.1 (some "sig-data") (some "sess-1") (by decide),
   submit_form_guard.2.2.2.1 false,
   submit_form_guard.2.2.2.2 (SigCanvas.mk false "sig-data") "sig-data" rfl⟩

/-- A concrete form payload used to instantiate theorems. -/
def sampleFormData : FormData :=
  { session_id := "sess-1", first_name := "Ana", language := "en",
    date_of_birth := none, zip_code := none, general_health := none,
    general_health_display := none, moderate_activities_limitation := none,
    moderate_activities_display := none, climbing_stairs_limitation := none,
    climbing_stairs_display := none, call_completed := false }

/-- C3 counterexample: the claim says token misuse (expired, already
consumed, unknown) reaches the web user as a distinct reason, but the
client throws the same generic error for every non-ok response and the
form page shows the same generic message: an expired-link response
(410), an already-consumed response (409) and an unknown-token response
(404) all produce the identical user-visible state. -/
theorem token_misuse_not_distinguished :
    getFormData ⟨false, 410, sampleFormData⟩ = getFormData ⟨false, 409, sampleFormData⟩ ∧
    fetchDataResult ⟨false, 410, sampleFormData⟩ = fetchDataResult ⟨false, 409, sampleFormData⟩ ∧
    fetchDataResult ⟨false, 410, sampleFormData⟩ = fetchDataResult ⟨false, 404, sampleFormData⟩ ∧
    (fetchDataResult ⟨false, 410, sampleFormData⟩).1 =
      some "Unable to load form data. Please try again later." :=
  ⟨rfl, rfl, rfl, rfl⟩

/-- C3 amended: token misuse (expired, already consumed, unknown) reaches
the web user as one generic failure — `getFormData` throws the same error
for every non-ok response and the form page displays the same message — so
the web UI cannot distinguish an expired link from an already-submitted
form. -/
theorem token_misuse_generic_message (resp : HttpResponse FormData)
    (h : resp.ok = false) :
    getFormData resp = .error "Failed to fetch form data" ∧
    fetchDataResult resp =
      (some "Unable to load form data. Please try again later.", none) := by
  constructor
  · simp [getFormData, h]
  · simp [fetchDataResult, getFormData, h]

/-- Witness for the amended C3 at a concrete non-ok response. -/
theorem token_misuse_generic_message_witness :
    getFormData ⟨false, 410, sampleFormData⟩ = .error "Failed to fetch form data" ∧
    fetchDataResult ⟨false, 410, sampleFormData⟩ =
      (some "Unable to load form data. Please try again later.", none) :=
  token_misuse_generic_message ⟨false, 410, sampleFormData⟩ rfl

/-- C4: every successful form-data response carries the subject-facing
projection: session_id, first_name, language, the nullable collected
values and display values of the assessment slots, and the call_completed
flag — exactly the keys of the `FormData` interface, in order. -/
theorem form_data_projection_fields (resp : HttpResponse FormData)
    (h : resp.ok = true) :
    ∃ fd, getFormData resp = .ok fd ∧
      fd.toPairs.map Prod.fst =
        [ "session_id", "first_name", "language", "date_of_birth", "zip_code",
          "general_health", "general_health_display",
          "moderate_activities_limitation", "moderate_activities_display",
          "climbing_stairs_limitation", "climbing_stairs_display",
          "call_completed" ] :=
  ⟨resp.body, by simp [getFormData, h], rfl⟩

/-- Witness for C4 at a concrete successful response. -/
theorem form_data_projection_fields_witness :
    ∃ fd, getFormData ⟨true, 200, sampleFormData⟩ = .ok fd ∧
      fd.toPairs.map Prod.fst =
        [ "session_id", "first_name", "language", "date_of_birth", "zip_code",
          "general_health", "general_health_display",
          "moderate_activities_limitation", "moderate_activities_display",
          "climbing_stairs_limitation", "climbing_stairs_display",
          "call_completed" ] :=
  form_data_projection_fields ⟨true, 200, sampleFormData⟩ rfl

/-- C5: the initiate-call request carries exactly first_name, phone_number
and language, the response exactly success, session_id and message; the
client throws on every non-ok response; and the home page's submit is
enabled only with non-empty first name and phone number, so the request it
then builds has non-empty fields. -/
theorem initiate_call_contract :
    (∀ (r : OutboundCallRequest),
        r.toPairs.map Prod.fst = ["first_name", "phone_number", "language"]) ∧
    (∀ (r : OutboundCallResponse),
        r.toPairs.map Prod.fst = ["success", "session_id", "message"]) ∧
    (∀ (resp : HttpResponse OutboundCallResponse), resp.ok = false →
        initiateOutboundCall resp = .error "Failed to initiate call") ∧
    (∀ (isLoading : Bool) (firstName phoneNumber : String) (l : Language),
        homeSubmitDisabled isLoading firstName phoneNumber = false →
        (homeCallRequest firstName phoneNumber l).first_name ≠ "" ∧
        (homeCallRequest firstName phoneNumber l).phone_number ≠ "") := by
  refine ⟨fun r => rfl, fun r => rfl, ?_, ?_⟩
  · intro resp h
    simp [initiateOutboundCall, h]
  · intro isLoading firstName phoneNumber l h
    simp [homeSubmitDisabled] at h
    obtain ⟨⟨-, hf⟩, hp⟩ := h
    exact ⟨hf, hp⟩

/-- Witness for C5: a failed call response throws, and an enabled submit
has non-empty fields. -/
theorem initiate_call_contract_witness :
    initiateOutboundCall ⟨false, 500, ⟨false, "", ""⟩⟩ =
      .error "Failed to initiate call" ∧
    (homeCallRequest "Ana" "+15550001111" Language.es).first_name ≠ "" ∧
    (homeCallRequest "Ana" "+15550001111" Language.es).phone_number ≠ "" :=
  ⟨initiate_call_contract.2.2.1 ⟨false, 500, ⟨false, "", ""⟩⟩ rfl,
   initiate_call_contract.2.2.2 false "Ana" "+15550001111" Language.es rfl⟩

/-- C6: the session-status query returns exactly the four fields
session_id, call_completed, form_submitted and opted_in_for_sms for every
successful response, and the client obtains them from
`/api/forms/{session_id}/status` — which differs, for every session id,
from the `/api/calls/session/{session_id}` endpoint the README's API table
documents. -/
theorem session_status_contract :
    (∀ (st : SessionStatus),
        st.toPairs.map Prod.fst =
          ["session_id", "call_completed", "form_submitted", "opted_in_for_sms"]) ∧
    (∀ (resp : HttpResponse SessionStatus), resp.ok = true →
        getSessionStatus resp = .ok resp.body) ∧
    (∀ (sid : String),
        getSessionStatusPath sid = "/api/forms/" ++ sid ++ "/status") ∧
    (∀ (sid : String), getSessionStatusPath sid ≠ readmeSessionStatusPath sid) := by
  refine ⟨fun st => rfl, ?_, fun sid => rfl, ?_⟩
  · intro resp h
    simp [getSessionStatus, h]
  · intro sid h
    have hlen := congrArg String.length h
    rw [getSessionStatusPath, readmeSessionStatusPath,
      string_length_append, string_length_append, string_length_append] at hlen
    have e1 : ("/api/forms/" : String).length = 11 := rfl
    have e2 : ("/status" : String).length = 7 := rfl
    have e3 : ("/api/calls/session/" : String).length = 19 := rfl
    rw [e1, e2, e3] at hlen
    omega

/-- Witness for C6: a concrete successful response is returned as parsed,
and the client path at a concrete session id differs from the README's. -/
theorem session_status_contract_witness :
    getSessionStatus ⟨true, 200, ⟨"sess-1", true, false, true⟩⟩ =
      .ok ⟨"sess-1", true, false, true⟩ ∧
    getSessionStatusPath "sess-1" ≠ readmeSessionStatusPath "sess-1" :=
  ⟨session_status_contract.2.1 ⟨true, 200, ⟨"sess-1", true, false, true⟩⟩ rfl,
   session_status_contract.2.2.2 "sess-1"⟩

/-- C7: the preferred language is two-valued — the supported locales are
exactly en and es — the en and es translation tables define exactly the
same keys, and a home-page request can only carry language en or es. -/
theorem language_support_aligned :
    (∀ (l : Language), l = Language.en ∨ l = Language.es) ∧
    (translations Language.en).map Prod.fst = (translations Language.es).map Prod.fst ∧
    homeLanguageOptions = [Language.en, Language.es] ∧
    (∀ (firstName phoneNumber : String) (l : Language),
        (homeCallRequest firstName phoneNumber l).language = some Language.en ∨
        (homeCallRequest firstName phoneNumber l).language = some Language.es) := by
  refine ⟨?_, rfl, rfl, ?_⟩
  · intro l
    cases l
    · exact Or.inl rfl
    · exact Or.inr rfl
  · intro firstName phoneNumber l
    cases l
    · exact Or.inl rfl
    · exact Or.inr rfl

/-- The form-page state right before `submitForm` settles: data loaded, a
signature drawn, submission in flight. -/
def formPageStateBeforeSubmit : FormPageState :=
  { formData := some sampleFormData, isLoading := false, error := none,
    signature := some "sig-data-url", isSubmitting := true, isSubmitted := false }

/-- C8 counterexample: the claim says that after `submitForm` rejects "the
unsubmitted form stays visible", but setting the error message makes the
page take the error-card early return, so the form view is not rendered. -/
theorem failed_submit_error_view :
    renderFormPage (handleSubmitResult formPageStateBeforeSubmit
        (Except.error "Failed to submit form")) = FormView.errorView ∧
    renderFormPage (handleSubmitResult formPageStateBeforeSubmit
        (Except.error "Failed to submit form")) ≠ FormView.formView := by
  constructor
  · rfl
  · intro h
    simp [renderFormPage, handleSubmitResult, formPageStateBeforeSubmit] at h

/-- C8 amended: the submitted-success view is shown only after `submitForm`
resolves successfully: if `submitForm` rejects (it throws on every non-ok
response), `isSubmitted` stays false and the generic error message is set,
so the page never shows the success view — it shows the error view rather
than the unsubmitted form. -/
theorem failed_submit_never_success (s : FormPageState) (err : String)
    (h : s.isSubmitted = false) :
    (handleSubmitResult s (.error err)).isSubmitted = false ∧
    (handleSubmitResult s (.error err)).error =
      some "Failed to submit form. Please try again." ∧
    renderFormPage (handleSubmitResult s (.error err)) ≠ FormView.submittedView ∧
    (∀ (resp : HttpResponse SubmitResponse), resp.ok = false →
        submitForm resp = .error "Failed to submit form") := by
  refine ⟨h, rfl, ?_, ?_⟩
  · unfold renderFormPage handleSubmitResult
    by_cases hl : s.isLoading <;> simp [hl]
  · intro resp hr
    simp [submitForm, hr]

/-- Witness for the amended C8 at the concrete pre-submit state. -/
theorem failed_submit_never_success_witness :
    (handleSubmitResult formPageStateBeforeSubmit
        (.error "Failed to submit form")).isSubmitted = false ∧
    (handleSubmitResult formPageStateBeforeSubmit
        (.error "Failed to submit form")).error =
      some "Failed to submit form. Please try again." ∧
    renderFormPage (handleSubmitResult formPageStateBeforeSubmit
        (.error "Failed to submit form")) ≠ FormView.submittedView ∧
    (∀ (resp : HttpResponse SubmitResponse), resp.ok = false →
        submitForm resp = .error "Failed to submit form") :=
  failed_submit_never_success formPageStateBeforeSubmit "Failed to submit form" rfl

/-- C9: `formatPhoneNumber` first removes all non-digit characters; on
exactly 10 remaining digits d1..d10 it returns "(d1d2d3) d4d5d6-d7d8d9d10",
on exactly 11 digits it prepends "+<first digit> " to the same layout of
the remaining ten, and on any other digit count it returns the input
unchanged. -/
theorem formatPhoneNumber_spec (phone : String) :
    (∀ (d1 d2 d3 d4 d5 d6 d7 d8 d9 d10 : Char),
        phone.data.filter Char.isDigit = [d1, d2, d3, d4, d5, d6, d7, d8, d9, d10] →
        formatPhoneNumber phone =
          String.mk ['(', d1, d2, d3, ')', ' ', d4, d5, d6, '-', d7, d8, d9, d10]) ∧
    (∀ (d0 d1 d2 d3 d4 d5 d6 d7 d8 d9 d10 : Char),
        phone.data.filter Char.isDigit =
          [d0, d1, d2, d3, d4, d5, d6, d7, d8, d9, d10] →
        formatPhoneNumber phone =
          String.mk ['+', d0, ' ', '(', d1, d2, d3, ')', ' ', d4, d5, d6, '-',
            d7, d8, d9, d10]) ∧
    ((phone.data.filter Char.isDigit).length ≠ 10 →
      (phone.data.filter Char.isDigit).length ≠ 11 →
      formatPhoneNumber phone = phone) := by
  refine ⟨?_, ?_, ?_⟩
  · intro d1 d2 d3 d4 d5 d6 d7 d8 d9 d10 h
    rw [formatPhoneNumber_eq, h]
    rfl
  · intro d0 d1 d2 d3 d4 d5 d6 d7 d8 d9 d10 h
    rw [formatPhoneNumber_eq, h]
    rfl
  · intro h10 h11
    have hm : phoneMatch (phone.data.filter Char.isDigit) = none := by
      simp [phoneMatch, tryPhoneMatch, h10, h11]
    rw [formatPhoneNumber_eq, hm]

/-- Witness for C9 at a 10-digit, an 11-digit, and an off-length input. -/
theorem formatPhoneNumber_spec_witness :
    formatPhoneNumber "555-123-4567" = "(555) 123-4567" ∧
    formatPhoneNumber "+1 (555) 123-4567" = "+1 (555) 123-4567" ∧
    formatPhoneNumber "12345" = "12345" :=
  ⟨(formatPhoneNumber_spec "555-123-4567").1
      '5' '5' '5' '1' '2' '3' '4' '5' '6' '7' (by decide),
   (formatPhoneNumber_spec "+1 (555) 123-4567").2.1
      '1' '5' '5' '5' '1' '2' '3' '4' '5' '6' '7' (by decide),
   (formatPhoneNumber_spec "12345").2.2 (by decide) (by decide)⟩

/-- C10: `FormField` renders the fallback text (default "Not provided")
exactly when the supplied value is null or the empty string, and renders
the value itself for every non-empty string — so an empty-string slot value
displays as not provided, identically to a null value. -/
theorem form_field_fallback_exactly_on_missing (value : Option String)
    (fallback : String) :
    (renderFormField value fallback = .fallbackText fallback ↔
        value = none ∨ value = some "") ∧
    (∀ (v : String), value = some v → v ≠ "" →
        renderFormField value fallback = .valueText v) ∧
    renderFormFieldDefault value = renderFormField value "Not provided" ∧
    renderFormField none fallback = renderFormField (some "") fallback := by
  refine ⟨?_, ?_, rfl, rfl⟩
  · match value with
    | none => simp [renderFormField]
    | some v =>
        by_cases hv : v = "" <;> simp [renderFormField, hv]
  · intro v hv hne
    subst hv
    simp [renderFormField, hne]

/-- Witness for C10: an empty-string value falls back, a non-empty value is
shown, and the two defaults agree. -/
theorem form_field_fallback_exactly_on_missing_witness :
    renderFormField (some "") "Not provided" = .fallbackText "Not provided" ∧
    renderFormField (some "Good") "Not provided" = .valueText "Good" ∧
    renderFormFieldDefault none = renderFormField none "Not provided" :=
  ⟨(form_field_fallback_exactly_on_missing (some "") "Not provided").1.mpr
      (Or.inr rfl),
   (form_field_fallback_exactly_on_missing (some "Good") "Not provided").2.1
      "Good" rfl (by decide),
   (form_field_fallback_exactly_on_missing none "Not provided").2.2.1⟩

end ZappixDemo
